import Mathlib

/-!
Shallow embedding of the `chest` ink! contract (`src/lib.rs`) of the
Crezno/warchest repository: a collateral-backed fungible-token ledger with
balances, allowances, a collateral pool, and the public operations
`approve`, `transfer`, `transfer_from`, `mint`, `redeem`.

Modelling decisions:
* `AccountId` (an opaque 32-byte identifier in ink!) is embedded as `Nat`;
  the code only ever compares account ids for equality.
* `u128` values are embedded as `Nat`; every arithmetic operation of the
  source that can leave the `u128` range carries an explicit guard against
  `U128_MOD = 2^128` (see `Overflow` below).
* `StorageHashMap` is embedded as an association list (`Map` below) with
  the operations the source uses: `get`/`unwrap_or(0)` is `find?`+`getD 0`,
  `insert` replaces the binding, `contains_key` is `contains`, and
  `entry(k).or_insert(0)` followed by a read is `(find? m k).getD 0`
  (the final written value is recorded with `insert`, which also covers
  the entry-API inserting a `0` binding for an absent key).
* Each public message is a function `Chest → ... → Except ChestError Chest`.
  In ink!, a failed `assert!` panics and the hosting environment reverts
  every storage mutation of the call, so a failing call is embedded as
  `.error e` carrying no state; `commitStep` makes the committed semantics
  explicit.
* The panic messages of the source map to the error taxonomy of the spec:
  "Sender does not have a balance" (both asserts of `transfer_from_to`)
  ↦ `insufficientBalance`, "Not enough allowance" ↦ `insufficientAllowance`,
  "Not enough balance to redeem" ↦ `insufficientBalance`,
  "Not enough collateral in the pool" ↦ `insufficientCollateral`,
  "Collateral pool should be greater than 0" ↦ `collateralPoolEmpty`.
-/

namespace Warchest

/-- Account identifiers; the source's `AccountId` compared only by equality. -/
abbrev AccountId := Nat

/-- One more than the largest `u128` value. -/
def U128_MOD : Nat := 2 ^ 128

/-- Association-list embedding of the source's `StorageHashMap`. -/
abbrev Map (α β : Type) := List (α × β)

/-- Lookup of the first binding of a key, the source's `get`. -/
def Map.find? {α β : Type} [DecidableEq α] : Map α β → α → Option β
  | [], _ => none
  | (k', v) :: t, k => if k' = k then some v else Map.find? t k

/-- Replace the first binding of a key, or append a new binding: the
source's `insert` (and the write-back through the `entry` API). -/
def Map.insert {α β : Type} [DecidableEq α] : Map α β → α → β → Map α β
  | [], k, v => [(k, v)]
  | (k', v') :: t, k, v =>
      if k' = k then (k, v) :: t else (k', v') :: Map.insert t k v

/-- The source's `contains_key`. -/
def Map.contains {α β : Type} [DecidableEq α] (m : Map α β) (k : α) : Bool :=
  (Map.find? m k).isSome

/-- Sum of all stored values, the aggregate the spec compares
`total_supply` against. -/
def Map.sumValues {α : Type} : Map α Nat → Nat
  | [] => 0
  | (_, v) :: t => v + Map.sumValues t

/-- Error taxonomy of the spec (§7); each constructor corresponds to one
panic message of `src/lib.rs`, and `overflow` to a checked-arithmetic
panic (see `ChestError.overflow` note in the module comment). -/
inductive ChestError : Type
  | insufficientBalance
  | insufficientAllowance
  | insufficientCollateral
  | collateralPoolEmpty
  | overflow
  deriving DecidableEq, Repr

/-- The `#[ink(storage)]` struct `Chest` of `src/lib.rs`. -/
structure Chest : Type where
  total_supply : Nat
  name : String
  symbol : String
  decimals : Nat
  balances : Map AccountId Nat
  allowed : Map (AccountId × AccountId) Nat
  collateral_pool : Nat
  collateral_address : AccountId
  collateral_price : Nat
  deriving DecidableEq, Repr

/-- The `#[ink(constructor)]` `new`: empty maps, zero supply, zero pool. -/
def Chest.new (name symbol : String) (decimals : Nat)
    (collateral_address : AccountId) (collateral_price : Nat) : Chest :=
  { total_supply := 0
    name := name
    symbol := symbol
    decimals := decimals
    balances := []
    allowed := []
    collateral_pool := 0
    collateral_address := collateral_address
    collateral_price := collateral_price }

/-- The message `balance_of`: stored balance or 0. -/
def Chest.balance_of (s : Chest) (owner : AccountId) : Nat :=
  (Map.find? s.balances owner).getD 0

/-- The message `allowance`: stored allowance of `(owner, spender)` or 0. -/
def Chest.allowance (s : Chest) (owner spender : AccountId) : Nat :=
  (Map.find? s.allowed (owner, spender)).getD 0

/-- The message `approve` (src/lib.rs:88-98): the caller unconditionally
overwrites the `(caller, spender)` allowance entry; never fails. -/
def approve (s : Chest) (caller spender : AccountId) (amount : Nat) :
    Except ChestError Chest :=
  .ok { s with allowed := Map.insert s.allowed (caller, spender) amount }

/-- The private helper `transfer_from_to` (src/lib.rs:116-132):
`assert!(contains_key(from))`, `assert!(balance >= amount)` (both panic
"Sender does not have a balance"), debit `from`, credit `toAcc` (the credit
is the one addition of the function that can overflow). -/
def transfer_from_to (s : Chest) (fromAcc toAcc : AccountId) (amount : Nat) :
    Except ChestError Chest :=
  if ¬ Map.contains s.balances fromAcc then .error .insufficientBalance
  else
    let balance := (Map.find? s.balances fromAcc).getD 0
    if balance < amount then .error .insufficientBalance
    else
      let balances1 := Map.insert s.balances fromAcc (balance - amount)
      let to_balance := (Map.find? balances1 toAcc).getD 0
      if U128_MOD ≤ to_balance + amount then .error .overflow
      else .ok { s with balances := Map.insert balances1 toAcc (to_balance + amount) }

/-- The message `transfer` (src/lib.rs:100-104): a direct pass-through to
`transfer_from_to` with the caller as source. -/
def transfer (s : Chest) (caller toAcc : AccountId) (amount : Nat) :
    Except ChestError Chest :=
  transfer_from_to s caller toAcc amount

/-- The intermediate state of `transfer_from` right after the allowance
decrement of src/lib.rs:112, before `transfer_from_to` is attempted;
exposed to reason about partial mutation under the revert semantics. -/
def transfer_from_mid (s : Chest) (caller fromAcc : AccountId) (amount : Nat) :
    Chest :=
  let allowance := (Map.find? s.allowed (fromAcc, caller)).getD 0
  { s with allowed := Map.insert s.allowed (fromAcc, caller) (allowance - amount) }

/-- The message `transfer_from` (src/lib.rs:107-114): check the
`(from, caller)` allowance (panic "Not enough allowance"), decrement it,
then run `transfer_from_to`. -/
def transfer_from (s : Chest) (caller fromAcc toAcc : AccountId) (amount : Nat) :
    Except ChestError Chest :=
  let allowance := (Map.find? s.allowed (fromAcc, caller)).getD 0
  if allowance < amount then .error .insufficientAllowance
  else transfer_from_to (transfer_from_mid s caller fromAcc amount) fromAcc toAcc amount

/-- The message `mint` (src/lib.rs:135-152): compute
`collateral_amount = amount * collateral_price / 100` (truncating division,
before any pool mutation), deposit it into the pool,
`assert!(collateral_pool > 0)` (panic "Collateral pool should be greater
than 0"), credit the caller, increase `total_supply`. Every `U128_MOD ≤`
guard embeds a checked `u128` addition or multiplication of the source. -/
def mint (s : Chest) (caller : AccountId) (amount : Nat) :
    Except ChestError Chest :=
  if U128_MOD ≤ amount * s.collateral_price then .error .overflow
  else
    let collateral_amount := amount * s.collateral_price / 100
    if U128_MOD ≤ s.collateral_pool + collateral_amount then .error .overflow
    else
      let pool := s.collateral_pool + collateral_amount
      if pool = 0 then .error .collateralPoolEmpty
      else
        let balance := (Map.find? s.balances caller).getD 0
        if U128_MOD ≤ balance + amount then .error .overflow
        else if U128_MOD ≤ s.total_supply + amount then .error .overflow
        else .ok { s with
          collateral_pool := pool
          balances := Map.insert s.balances caller (balance + amount)
          total_supply := s.total_supply + amount }

/-- The message `redeem` (src/lib.rs:155-174): `assert!(balance >= amount)`
(panic "Not enough balance to redeem"), compute
`collateral_amount = amount * collateral_price / 100`,
`assert!(collateral_pool >= collateral_amount)` (panic "Not enough
collateral in the pool"), then debit the caller, decrease `total_supply`
(a checked subtraction, unreachable failure under the supply invariant)
and withdraw the collateral. -/
def redeem (s : Chest) (caller : AccountId) (amount : Nat) :
    Except ChestError Chest :=
  let balance := (Map.find? s.balances caller).getD 0
  if balance < amount then .error .insufficientBalance
  else if U128_MOD ≤ amount * s.collateral_price then .error .overflow
  else
    let collateral_amount := amount * s.collateral_price / 100
    if s.collateral_pool < collateral_amount then .error .insufficientCollateral
    else if s.total_supply < amount then .error .overflow
    else .ok { s with
      balances := Map.insert s.balances caller (balance - amount)
      total_supply := s.total_supply - amount
      collateral_pool := s.collateral_pool - collateral_amount }

/-- One public mutating call together with its caller identity. -/
inductive Op : Type
  | approve (caller spender : AccountId) (amount : Nat)
  | transfer (caller toAcc : AccountId) (amount : Nat)
  | transfer_from (caller fromAcc toAcc : AccountId) (amount : Nat)
  | mint (caller : AccountId) (amount : Nat)
  | redeem (caller : AccountId) (amount : Nat)
  deriving DecidableEq, Repr

/-- Dispatch of one public call. -/
def exec (s : Chest) : Op → Except ChestError Chest
  | .approve caller spender amount => approve s caller spender amount
  | .transfer caller toAcc amount => transfer s caller toAcc amount
  | .transfer_from caller fromAcc toAcc amount => transfer_from s caller fromAcc toAcc amount
  | .mint caller amount => mint s caller amount
  | .redeem caller amount => redeem s caller amount

/-- Run a sequence of calls in which every call succeeds; any failure
aborts the whole run. -/
def execAll (s : Chest) : List Op → Except ChestError Chest
  | [] => .ok s
  | op :: rest =>
      match exec s op with
      | .error e => .error e
      | .ok s' => execAll s' rest

/-- Modelled from the spec: the hosting environment (§5, not part of
`src/`) commits the state of a call only if the whole call succeeds and
discards every mutation of a failing call, so the state after a failed
call is the pre-call state. -/
def commitStep (s : Chest) (op : Op) : Chest :=
  match exec s op with
  | .ok s' => s'
  | .error _ => s

deriving instance DecidableEq for Except


section MapLemmas

variable {α : Type} [DecidableEq α]

theorem Map.find?_insert_self (m : Map α Nat) (k : α) (v : Nat) :
    Map.find? (Map.insert m k v) k = some v := by
  induction m with
  | nil => simp [Map.insert, Map.find?]
  | cons hd t ih =>
      obtain ⟨k', v'⟩ := hd
      by_cases h : k' = k
      · simp [Map.insert, h, Map.find?]
      · simp [Map.insert, h, Map.find?, ih]

theorem Map.find?_insert_ne (m : Map α Nat) {k k' : α} (v : Nat) (h : k' ≠ k) :
    Map.find? (Map.insert m k v) k' = Map.find? m k' := by
  have hkk : ¬ k = k' := fun hk => h hk.symm
  induction m with
  | nil => simp [Map.insert, Map.find?, hkk]
  | cons hd t ih =>
      obtain ⟨k₀, v₀⟩ := hd
      by_cases hk : k₀ = k
      · subst hk
        simp [Map.insert, Map.find?, hkk]
      · simp [Map.insert, hk, Map.find?, ih]

theorem Map.insert_insert_same (m : Map α Nat) (k : α) (v w : Nat) :
    Map.insert (Map.insert m k v) k w = Map.insert m k w := by
  induction m with
  | nil => simp [Map.insert]
  | cons hd t ih =>
      obtain ⟨k₀, v₀⟩ := hd
      by_cases hk : k₀ = k
      · simp [Map.insert, hk]
      · simp [Map.insert, hk, ih]

theorem Map.insert_find?_self (m : Map α Nat) {k : α} {v : Nat}
    (h : Map.find? m k = some v) : Map.insert m k v = m := by
  induction m with
  | nil => simp [Map.find?] at h
  | cons hd t ih =>
      obtain ⟨k₀, v₀⟩ := hd
      by_cases hk : k₀ = k
      · subst hk
        simp [Map.find?] at h
        simp [Map.insert, h]
      · simp only [Map.find?, if_neg hk] at h
        simp [Map.insert, hk, ih h]

theorem Map.sum_insert (m : Map α Nat) (k : α) (v : Nat) :
    Map.sumValues (Map.insert m k v) + (Map.find? m k).getD 0 =
      Map.sumValues m + v := by
  induction m with
  | nil => simp [Map.insert, Map.find?, Map.sumValues]
  | cons hd t ih =>
      obtain ⟨k₀, v₀⟩ := hd
      by_cases hk : k₀ = k
      · simp [Map.insert, hk, Map.find?, Map.sumValues]
        omega
      · simp [Map.insert, hk, Map.find?, Map.sumValues]
        omega

theorem Map.find?_le_sum (m : Map α Nat) {k : α} {v : Nat}
    (h : Map.find? m k = some v) : v ≤ Map.sumValues m := by
  induction m with
  | nil => simp [Map.find?] at h
  | cons hd t ih =>
      obtain ⟨k₀, v₀⟩ := hd
      by_cases hk : k₀ = k
      · simp only [Map.find?, if_pos hk, Option.some.injEq] at h
        simp [Map.sumValues, h]
      · simp only [Map.find?, if_neg hk] at h
        have := ih h
        simp only [Map.sumValues]
        omega

theorem Map.two_find?_le_sum (m : Map α Nat) {k₁ k₂ : α} {v₁ v₂ : Nat}
    (hne : k₁ ≠ k₂) (h₁ : Map.find? m k₁ = some v₁)
    (h₂ : Map.find? m k₂ = some v₂) : v₁ + v₂ ≤ Map.sumValues m := by
  induction m with
  | nil => simp [Map.find?] at h₁
  | cons hd t ih =>
      obtain ⟨k₀, v₀⟩ := hd
      by_cases hk₁ : k₀ = k₁
      · subst hk₁
        simp [Map.find?] at h₁
        simp only [Map.find?, if_neg hne] at h₂
        have := Map.find?_le_sum t h₂
        simp only [Map.sumValues]
        omega
      · by_cases hk₂ : k₀ = k₂
        · subst hk₂
          have hne' : ¬ k₀ = k₁ := hk₁
          simp [Map.find?] at h₂
          simp only [Map.find?, if_neg hne'] at h₁
          have := Map.find?_le_sum t h₁
          simp only [Map.sumValues]
          omega
        · simp only [Map.find?, if_neg hk₁] at h₁
          simp only [Map.find?, if_neg hk₂] at h₂
          have := ih h₁ h₂
          simp only [Map.sumValues]
          omega

end MapLemmas

/-- The supply invariant of the spec (§3 invariant 1): `total_supply`
equals the sum of all stored balances. -/
def supplyInv (s : Chest) : Prop :=
  s.total_supply = Map.sumValues s.balances

theorem supplyInv_transfer_from_to {s s' : Chest} {fromAcc toAcc : AccountId}
    {amount : Nat} (h : transfer_from_to s fromAcc toAcc amount = .ok s') :
    s'.total_supply = s.total_supply ∧
      Map.sumValues s'.balances = Map.sumValues s.balances := by
  simp only [transfer_from_to] at h
  split_ifs at h with h1 h2 h3
  cases h
  refine ⟨rfl, ?_⟩
  show Map.sumValues
      (Map.insert (Map.insert s.balances fromAcc ((Map.find? s.balances fromAcc).getD 0 - amount))
        toAcc
        ((Map.find? (Map.insert s.balances fromAcc
          ((Map.find? s.balances fromAcc).getD 0 - amount)) toAcc).getD 0 + amount)) =
    Map.sumValues s.balances
  have e1 := Map.sum_insert s.balances fromAcc
    ((Map.find? s.balances fromAcc).getD 0 - amount)
  have e2 := Map.sum_insert
    (Map.insert s.balances fromAcc ((Map.find? s.balances fromAcc).getD 0 - amount))
    toAcc
    ((Map.find? (Map.insert s.balances fromAcc
      ((Map.find? s.balances fromAcc).getD 0 - amount)) toAcc).getD 0 + amount)
  omega

theorem supplyInv_exec {s s' : Chest} {op : Op} (h : exec s op = .ok s')
    (hs : supplyInv s) : supplyInv s' := by
  unfold supplyInv at hs ⊢
  cases op with
  | approve caller spender amount =>
      simp only [exec, approve] at h
      cases h
      exact hs
  | transfer caller toAcc amount =>
      simp only [exec, transfer] at h
      have := supplyInv_transfer_from_to h
      omega
  | transfer_from caller fromAcc toAcc amount =>
      simp only [exec, transfer_from] at h
      split_ifs at h with h1
      have := supplyInv_transfer_from_to h
      simp only [transfer_from_mid] at this
      omega
  | mint caller amount =>
      simp only [exec, mint] at h
      split_ifs at h with h1 h2 h3 h4 h5
      cases h
      show s.total_supply + amount =
        Map.sumValues (Map.insert s.balances caller
          ((Map.find? s.balances caller).getD 0 + amount))
      have e1 := Map.sum_insert s.balances caller
        ((Map.find? s.balances caller).getD 0 + amount)
      omega
  | redeem caller amount =>
      simp only [exec, redeem] at h
      split_ifs at h with h1 h2 h3 h4
      cases h
      show s.total_supply - amount =
        Map.sumValues (Map.insert s.balances caller
          ((Map.find? s.balances caller).getD 0 - amount))
      have e1 := Map.sum_insert s.balances caller
        ((Map.find? s.balances caller).getD 0 - amount)
      omega

theorem supplyInv_execAll {s s' : Chest} {ops : List Op}
    (h : execAll s ops = .ok s') (hs : supplyInv s) : supplyInv s' := by
  induction ops generalizing s with
  | nil =>
      simp only [execAll] at h
      cases h
      exact hs
  | cons op rest ih =>
      simp only [execAll] at h
      rcases hop : exec s op with e | s1
      · rw [hop] at h
        cases h
      · rw [hop] at h
        exact ih h (supplyInv_exec hop hs)

/-- The ledger of the repository's own tests: name "Chest", symbol "CHEST",
decimals 18, collateral price 100 (1:1 ratio). -/
def chest0 : Chest := Chest.new "Chest" "CHEST" 18 0 100

/-- C1: for every finite sequence of successful public operations (mint,
redeem, transfer, transfer_from, approve) starting from a freshly
constructed ledger, `total_supply` equals the sum of all values stored in
`balances` after each completed call. -/
theorem C1_total_supply_eq_sum_balances (nm sym : String) (dec : Nat)
    (addr : AccountId) (price : Nat) (ops : List Op) (s : Chest)
    (h : execAll (Chest.new nm sym dec addr price) ops = .ok s) :
    s.total_supply = Map.sumValues s.balances :=
  supplyInv_execAll h rfl

/-- The state reached from `chest0` by `mint(100000)` by account 1 followed
by `transfer(2, 50000)` by account 1. -/
def c1FinalState : Chest :=
  { total_supply := 100000
    name := "Chest"
    symbol := "CHEST"
    decimals := 18
    balances := [(1, 50000), (2, 50000)]
    allowed := []
    collateral_pool := 100000
    collateral_address := 0
    collateral_price := 100 }

theorem C1_witness :
    c1FinalState.total_supply = Map.sumValues c1FinalState.balances :=
  C1_total_supply_eq_sum_balances "Chest" "CHEST" 18 0 100
    [Op.mint 1 100000, Op.transfer 1 2 50000] c1FinalState (by decide)

/-- C2 counterexample: on a fresh ledger the caller (account 1) has
balance 0, so the claim says `transfer(2, 0)` succeeds (0 ≥ 0), but the
code rejects it with `InsufficientBalance` because account 1 has no entry
in `balances` (the `contains_key` assert of src/lib.rs:117). -/
theorem C2_counterexample :
    chest0.balance_of 1 = 0 ∧
      transfer chest0 1 2 0 = .error .insufficientBalance := by
  constructor <;> rfl

/-- C2 (amended): `transfer(to, amount)` succeeds iff the caller has an
entry in `balances` and that stored balance is at least `amount` (so a
transfer of 0 by an account that never held a balance fails), and every
failure reports `InsufficientBalance`; stated for states whose balances
sum below `2^128`, which holds for every reachable state by C1. -/
theorem C2_transfer_success_iff (s : Chest) (caller toAcc : AccountId)
    (amount : Nat) (hrange : Map.sumValues s.balances < U128_MOD) :
    ((∃ s', transfer s caller toAcc amount = .ok s') ↔
      (Map.contains s.balances caller ∧ amount ≤ s.balance_of caller)) ∧
    (∀ e, transfer s caller toAcc amount = .error e →
      e = .insufficientBalance) := by
  simp only [transfer, transfer_from_to, Chest.balance_of]
  split_ifs with h1 h2 h3
  · -- the caller has an entry but its balance is below `amount`
    constructor
    · constructor
      · rintro ⟨s', hs'⟩
        cases hs'
      · rintro ⟨-, hle⟩
        omega
    · intro e he
      cases he
      rfl
  · -- the credit-overflow branch cannot fire when the balances sum is in range
    exfalso
    rcases hfind : Map.find? s.balances caller with _ | balA
    · rw [Map.contains, hfind] at h1
      simp at h1
    · rw [hfind] at h2 h3
      simp only [Option.getD_some] at h2 h3
      by_cases hAB : toAcc = caller
      · subst hAB
        rw [Map.find?_insert_self] at h3
        simp only [Option.getD_some] at h3
        have := Map.find?_le_sum s.balances hfind
        omega
      · rw [Map.find?_insert_ne _ _ hAB] at h3
        rcases hfB : Map.find? s.balances toAcc with _ | vB
        · rw [hfB] at h3
          have := Map.find?_le_sum s.balances hfind
          simp only [Option.getD_none] at h3
          omega
        · rw [hfB] at h3
          simp only [Option.getD_some] at h3
          have := Map.two_find?_le_sum s.balances hAB hfB hfind
          omega
  · -- success branch
    constructor
    · constructor
      · intro _
        exact ⟨h1, by omega⟩
      · intro _
        exact ⟨_, rfl⟩
    · intro e he
      cases he
  · -- the caller has no entry in `balances`
    constructor
    · constructor
      · rintro ⟨s', hs'⟩
        cases hs'
      · rintro ⟨hc, -⟩
        exact absurd hc h1
    · intro e he
      cases he
      rfl

/-- The state reached from `chest0` by `mint(1)` by account 1: the pool
holds 1 unit of collateral. -/
def c3MidState : Chest :=
  { total_supply := 1
    name := "Chest"
    symbol := "CHEST"
    decimals := 18
    balances := [(1, 1)]
    allowed := []
    collateral_pool := 1
    collateral_address := 0
    collateral_price := 100 }

/-- State `c3MidState` after a further `mint(0)` by account 1: the mint succeeds
even though its computed collateral deposit is 0. -/
def c3FinalState : Chest :=
  { c3MidState with balances := [(1, 1)] }

/-- C3 counterexample: after `mint(1)` the pool is 1; a second `mint(0)`
has computed collateral deposit `0 * 100 / 100 = 0`, yet it succeeds
instead of being rejected, refuting the claim that a zero-valued mint is
(always) rejected. -/
theorem C3_counterexample :
    mint chest0 1 1 = .ok c3MidState ∧
    0 * c3MidState.collateral_price / 100 = 0 ∧
    mint c3MidState 1 0 = .ok c3FinalState := by
  refine ⟨by decide, by decide, by decide⟩

/-- C3 (amended): `mint(amount)` fails with `CollateralPoolEmpty` exactly
when `collateral_pool + amount * collateral_price / 100` equals 0 after
the deposit; hence a zero-deposit mint is rejected when (and only when)
the pool is empty, while with a positive pool it succeeds. -/
theorem C3_poolEmpty_iff (s : Chest) (caller : AccountId) (amount : Nat) :
    mint s caller amount = .error .collateralPoolEmpty ↔
      s.collateral_pool + amount * s.collateral_price / 100 = 0 := by
  simp only [mint]
  split_ifs with h1 h2 h3 h4 h5
  · exact iff_of_false (by simp)
      (by have hM : U128_MOD = 2 ^ 128 := rfl; omega)
  · exact iff_of_false (by simp)
      (by have hM : U128_MOD = 2 ^ 128 := rfl; omega)
  · exact iff_of_true rfl h3
  · exact iff_of_false (by simp) h3
  · exact iff_of_false (by simp) h3
  · exact iff_of_false (by simp) h3

theorem C2_witness :
    ((∃ s', transfer c1FinalState 1 2 7 = .ok s') ↔
      (Map.contains c1FinalState.balances 1 ∧ 7 ≤ c1FinalState.balance_of 1)) ∧
    (∀ e, transfer c1FinalState 1 2 7 = .error e →
      e = .insufficientBalance) :=
  C2_transfer_success_iff c1FinalState 1 2 7 (by decide)

/-- State `chest0` after account 1 approved account 2 for 10 units. -/
def c4ApprovedState : Chest := { chest0 with allowed := [((1, 2), 10)] }

/-- C4: a failing operation leaves the committed ledger state (balances,
allowed, total_supply, collateral_pool) equal to the pre-call state; in
particular, a `transfer_from` whose balance debit fails leaves the
`(from, caller)` allowance unchanged even though the allowance was
already decremented (witnessed by `transfer_from_mid`) before the debit
was attempted. -/
theorem C4_failure_reverts :
    (∀ (s : Chest) (op : Op) (e : ChestError),
        exec s op = .error e → commitStep s op = s) ∧
    (c4ApprovedState.allowance 1 2 = 10 ∧
     (transfer_from_mid c4ApprovedState 2 1 5).allowance 1 2 = 5 ∧
     exec c4ApprovedState (.transfer_from 2 1 3 5) = .error .insufficientBalance ∧
     (commitStep c4ApprovedState (.transfer_from 2 1 3 5)).allowance 1 2 = 10) := by
  constructor
  · intro s op e h
    simp only [commitStep, h]
  · exact ⟨by decide, by decide, by decide, by decide⟩

theorem C4_witness :
    commitStep chest0 (.transfer 1 2 1) = chest0 :=
  C4_failure_reverts.1 chest0 (.transfer 1 2 1) .insufficientBalance (by decide)

/-- C5: error precedence is deterministic: in `transfer_from` the
allowance check precedes the balance check, so when both are insufficient
the error is `InsufficientAllowance`; in `redeem` the balance check
precedes the collateral check, so when both are insufficient the error is
`InsufficientBalance`. -/
theorem C5_error_precedence :
    (∀ (s : Chest) (caller fromAcc toAcc : AccountId) (amount : Nat),
        s.allowance fromAcc caller < amount →
        s.balance_of fromAcc < amount →
        transfer_from s caller fromAcc toAcc amount =
          .error .insufficientAllowance) ∧
    (∀ (s : Chest) (caller : AccountId) (amount : Nat),
        s.balance_of caller < amount →
        s.collateral_pool < amount * s.collateral_price / 100 →
        redeem s caller amount = .error .insufficientBalance) := by
  constructor
  · intro s caller fromAcc toAcc amount hallow hbal
    simp only [Chest.allowance] at hallow
    simp only [transfer_from, if_pos hallow]
  · intro s caller amount hbal hpool
    simp only [Chest.balance_of] at hbal
    simp only [redeem, if_pos hbal]

theorem C5_witness :
    transfer_from chest0 2 1 3 1 = .error .insufficientAllowance ∧
    redeem chest0 1 1 = .error .insufficientBalance :=
  ⟨C5_error_precedence.1 chest0 2 1 3 1 (by decide) (by decide),
   C5_error_precedence.2 chest0 1 1 (by decide) (by decide)⟩

/-- C6: `collateral_pool` is changed only by mint and redeem: a successful
`mint(amount)` increases it by exactly `amount * collateral_price / 100`
(truncating division, computed before any pool mutation), a successful
`redeem(amount)` decreases it by exactly the same expression (which then
is at most the pool), and successful `transfer`, `transfer_from` and
`approve` leave it unchanged. -/
theorem C6_pool_delta :
    (∀ (s s' : Chest) (caller : AccountId) (amount : Nat),
        mint s caller amount = .ok s' →
        s'.collateral_pool =
          s.collateral_pool + amount * s.collateral_price / 100) ∧
    (∀ (s s' : Chest) (caller : AccountId) (amount : Nat),
        redeem s caller amount = .ok s' →
        amount * s.collateral_price / 100 ≤ s.collateral_pool ∧
        s'.collateral_pool =
          s.collateral_pool - amount * s.collateral_price / 100) ∧
    (∀ (s s' : Chest) (caller toAcc : AccountId) (amount : Nat),
        transfer s caller toAcc amount = .ok s' →
        s'.collateral_pool = s.collateral_pool) ∧
    (∀ (s s' : Chest) (caller fromAcc toAcc : AccountId) (amount : Nat),
        transfer_from s caller fromAcc toAcc amount = .ok s' →
        s'.collateral_pool = s.collateral_pool) ∧
    (∀ (s s' : Chest) (caller spender : AccountId) (amount : Nat),
        approve s caller spender amount = .ok s' →
        s'.collateral_pool = s.collateral_pool) := by
  refine ⟨?_, ?_, ?_, ?_, ?_⟩
  · intro s s' caller amount h
    simp only [mint] at h
    split_ifs at h
    cases h
    rfl
  · intro s s' caller amount h
    simp only [redeem] at h
    split_ifs at h with h1 h2 h3 h4
    cases h
    exact ⟨by omega, rfl⟩
  · intro s s' caller toAcc amount h
    simp only [transfer, transfer_from_to] at h
    split_ifs at h
    cases h
    rfl
  · intro s s' caller fromAcc toAcc amount h
    simp only [transfer_from] at h
    split_ifs at h with h1
    simp only [transfer_from_to, transfer_from_mid] at h
    split_ifs at h
    cases h
    rfl
  · intro s s' caller spender amount h
    cases h
    rfl

/-- State `chest0` after `mint(5)` by account 1. -/
def c6MintState : Chest :=
  { chest0 with collateral_pool := 5, balances := [(1, 5)], total_supply := 5 }

/-- State `c6MintState` after `redeem(3)` by account 1. -/
def c6RedeemState : Chest :=
  { chest0 with collateral_pool := 2, balances := [(1, 2)], total_supply := 2 }

/-- State `c6MintState` after `transfer(2, 2)` by account 1. -/
def c6TransferState : Chest :=
  { c6MintState with balances := [(1, 3), (2, 2)] }

/-- State `c6MintState` with an allowance of 4 from account 1 to account 2. -/
def c6AllowState : Chest :=
  { c6MintState with allowed := [((1, 2), 4)] }

/-- State `c6AllowState` after `transfer_from(1, 3, 4)` called by account 2. -/
def c6TransferFromState : Chest :=
  { c6MintState with balances := [(1, 1), (3, 4)], allowed := [((1, 2), 0)] }

/-- State `chest0` after `approve(2, 9)` by account 1. -/
def c6ApproveState : Chest :=
  { chest0 with allowed := [((1, 2), 9)] }

theorem C6_witness :
    (c6MintState.collateral_pool =
      chest0.collateral_pool + 5 * chest0.collateral_price / 100) ∧
    (3 * c6MintState.collateral_price / 100 ≤ c6MintState.collateral_pool ∧
      c6RedeemState.collateral_pool =
        c6MintState.collateral_pool - 3 * c6MintState.collateral_price / 100) ∧
    (c6TransferState.collateral_pool = c6MintState.collateral_pool) ∧
    (c6TransferFromState.collateral_pool = c6AllowState.collateral_pool) ∧
    (c6ApproveState.collateral_pool = chest0.collateral_pool) :=
  ⟨C6_pool_delta.1 chest0 c6MintState 1 5 (by decide),
   C6_pool_delta.2.1 c6MintState c6RedeemState 1 3 (by decide),
   C6_pool_delta.2.2.1 c6MintState c6TransferState 1 2 2 (by decide),
   C6_pool_delta.2.2.2.1 c6AllowState c6TransferFromState 2 1 3 4 (by decide),
   C6_pool_delta.2.2.2.2 chest0 c6ApproveState 1 2 9 (by decide)⟩

/-- C7: checked `u128` arithmetic. Modelled from the spec: the overflow
behavior of the source's `+=` and `*` is fixed by the contract build
profile (overflow checks on), which is not part of `src/`; the spec
specifies failure with `Overflow` on range exceedance, embedded here by
the explicit `U128_MOD` guards. The credit inside `transfer_from_to` and
the collateral computation, pool deposit and credit inside `mint` each
fail with `Overflow` when the result would leave the `u128` range. -/
theorem C7_overflow_checked :
    (∀ (s : Chest) (fromAcc toAcc : AccountId) (amount : Nat),
        Map.contains s.balances fromAcc →
        amount ≤ s.balance_of fromAcc →
        U128_MOD ≤ (Map.find? (Map.insert s.balances fromAcc
          (s.balance_of fromAcc - amount)) toAcc).getD 0 + amount →
        transfer_from_to s fromAcc toAcc amount = .error .overflow) ∧
    (∀ (s : Chest) (caller : AccountId) (amount : Nat),
        U128_MOD ≤ amount * s.collateral_price →
        mint s caller amount = .error .overflow) ∧
    (∀ (s : Chest) (caller : AccountId) (amount : Nat),
        amount * s.collateral_price < U128_MOD →
        U128_MOD ≤ s.collateral_pool + amount * s.collateral_price / 100 →
        mint s caller amount = .error .overflow) ∧
    (∀ (s : Chest) (caller : AccountId) (amount : Nat),
        amount * s.collateral_price < U128_MOD →
        s.collateral_pool + amount * s.collateral_price / 100 < U128_MOD →
        s.collateral_pool + amount * s.collateral_price / 100 ≠ 0 →
        U128_MOD ≤ s.balance_of caller + amount →
        mint s caller amount = .error .overflow) := by
  refine ⟨?_, ?_, ?_, ?_⟩
  · intro s fromAcc toAcc amount hc hle hov
    simp only [Chest.balance_of] at hle hov
    simp only [transfer_from_to]
    rw [if_neg (not_not_intro hc), if_neg (by omega), if_pos hov]
  · intro s caller amount h
    simp only [mint]
    rw [if_pos h]
  · intro s caller amount h1 h2
    simp only [mint]
    rw [if_neg (by omega), if_pos h2]
  · intro s caller amount h1 h2 h3 h4
    simp only [Chest.balance_of] at h4
    simp only [mint]
    rw [if_neg (by omega), if_neg (by omega), if_neg h3, if_pos h4]

/-- State `chest0` with two accounts at the maximal `u128` balance (such a state
is not reachable, but the credit path must still guard the addition). -/
def c7MaxState : Chest :=
  { chest0 with balances := [(1, 2 ^ 128 - 1), (2, 2 ^ 128 - 1)] }

/-- State `chest0` with the collateral pool at the maximal `u128` value. -/
def c7PoolMaxState : Chest := { chest0 with collateral_pool := 2 ^ 128 - 1 }

/-- State `chest0` with account 1 at the maximal `u128` balance and a collateral
pool of 1. -/
def c7BalMaxState : Chest :=
  { chest0 with balances := [(1, 2 ^ 128 - 1)], collateral_pool := 1 }

theorem C7_witness :
    transfer_from_to c7MaxState 1 2 (2 ^ 128 - 1) = .error .overflow ∧
    mint chest0 1 (2 ^ 126) = .error .overflow ∧
    mint c7PoolMaxState 1 100 = .error .overflow ∧
    mint c7BalMaxState 1 1 = .error .overflow :=
  ⟨C7_overflow_checked.1 c7MaxState 1 2 (2 ^ 128 - 1) (by decide) (by decide)
      (by decide),
   C7_overflow_checked.2.1 chest0 1 (2 ^ 126) (by decide),
   C7_overflow_checked.2.2.1 c7PoolMaxState 1 100 (by decide) (by decide),
   C7_overflow_checked.2.2.2 c7BalMaxState 1 1 (by decide) (by decide)
      (by decide) (by decide)⟩

/-- C8: `approve(spender, amount)` never fails and unconditionally
overwrites the `(caller, spender)` allowance with `amount`: the new
allowance is `amount` whatever was stored before, approving twice with
identical arguments yields exactly the state of approving once, and after
two approvals the allowance equals the last approved amount. -/
theorem C8_approve_overwrite_idempotent (s : Chest)
    (caller spender : AccountId) (a a' : Nat) :
    ∃ s₁, approve s caller spender a = .ok s₁ ∧
      s₁.allowance caller spender = a ∧
      approve s₁ caller spender a = .ok s₁ ∧
      ∃ s₂, approve s₁ caller spender a' = .ok s₂ ∧
        s₂.allowance caller spender = a' := by
  refine ⟨_, rfl, ?_, ?_, _, rfl, ?_⟩
  · simp [Chest.allowance, Map.find?_insert_self]
  · simp only [approve]
    rw [Map.insert_insert_same]
  · simp [Chest.allowance, Map.insert_insert_same, Map.find?_insert_self]

/-- Characterization of a successful `transfer`: when the source account
has a stored balance at least `amount` and the credited balance stays in
range, the call succeeds and rewrites `balances` by the debit and the
credit of the source. -/
theorem transfer_ok (s : Chest) (A B : AccountId) (x balA : Nat)
    (hA : Map.find? s.balances A = some balA) (hx : x ≤ balA)
    (hov : (Map.find? (Map.insert s.balances A (balA - x)) B).getD 0 + x <
      U128_MOD) :
    transfer s A B x = .ok { s with balances :=
      (Map.insert (Map.insert s.balances A (balA - x)) B
        ((Map.find? (Map.insert s.balances A (balA - x)) B).getD 0 + x)) } := by
  simp only [transfer, transfer_from_to, Map.contains, hA, Option.isSome_some,
    Option.getD_some]
  rw [if_neg (by simp), if_neg (by omega), if_neg (by omega)]

/-- Shared helper: a self-transfer of `x ≤ balA` by an account holding a
stored balance `balA` in range succeeds and returns the state unchanged. -/
theorem transfer_self_ok (s : Chest) (A : AccountId) (x balA : Nat)
    (hA : Map.find? s.balances A = some balA) (hx : x ≤ balA)
    (hbal : balA < U128_MOD) :
    transfer s A A x = .ok s := by
  have hov : (Map.find? (Map.insert s.balances A (balA - x)) A).getD 0 + x <
      U128_MOD := by
    rw [Map.find?_insert_self]
    simp only [Option.getD_some]
    omega
  rw [transfer_ok s A A x balA hA hx hov]
  rw [Map.find?_insert_self]
  simp only [Option.getD_some]
  have hval : balA - x + x = balA := by omega
  rw [hval, Map.insert_insert_same, Map.insert_find?_self s.balances hA]

/-- C10 counterexample: account 5 never held a balance, so its balance 0
satisfies the claim's precondition for x = 0, yet the self-transfer
`transfer(5, 0)` by account 5 fails with `InsufficientBalance` instead of
succeeding. -/
theorem C10_counterexample :
    chest0.balance_of 5 = 0 ∧
      transfer chest0 5 5 0 = .error .insufficientBalance := by
  constructor <;> rfl

/-- C10 (amended): for every account `a` holding a stored balances entry
`balA` (in `u128` range) and every `x ≤ balA`, the self-transfer
`transfer(a, x)` called by `a` succeeds and returns the ledger unchanged
(in particular every balance and `total_supply` are unchanged); an
account without an entry is rejected even for `x = 0`. -/
theorem C10_self_transfer (s : Chest) (a : AccountId) (x balA : Nat)
    (hA : Map.find? s.balances a = some balA) (hx : x ≤ balA)
    (hbal : balA < U128_MOD) :
    transfer s a a x = .ok s :=
  transfer_self_ok s a x balA hA hx hbal

theorem C10_witness :
    transfer c6MintState 1 1 2 = .ok c6MintState :=
  C10_self_transfer c6MintState 1 2 5 (by decide) (by decide) (by decide)

/-- C9 counterexample: account 3 never held a balance, so its balance 0 is
at least x = 0 and the claim says the round trip succeeds, but already the
first transfer `transfer(4, 0)` by account 3 fails with
`InsufficientBalance`. -/
theorem C9_counterexample :
    chest0.balance_of 3 = 0 ∧
      transfer chest0 3 4 0 = .error .insufficientBalance := by
  constructor <;> rfl

/-- C9 (amended): for accounts `A`, `B` and `x ≤ balA` where `A` holds a
stored balances entry `balA` and the balances sum is in `u128` range
(true of every reachable state by C1), transferring `x` from `A` to `B`
and then `x` from `B` back to `A` succeeds and restores both `A`'s and
`B`'s balances to their pre-transfer values; if `A` has no balances entry
the round trip fails even for `x = 0`. -/
theorem C9_round_trip (s : Chest) (A B : AccountId) (x balA : Nat)
    (hA : Map.find? s.balances A = some balA) (hx : x ≤ balA)
    (hrange : Map.sumValues s.balances < U128_MOD) :
    ∃ s₁ s₂, transfer s A B x = .ok s₁ ∧ transfer s₁ B A x = .ok s₂ ∧
      s₂.balance_of A = s.balance_of A ∧
      s₂.balance_of B = s.balance_of B := by
  have hbalA_sum := Map.find?_le_sum s.balances hA
  by_cases hAB : A = B
  · subst hAB
    exact ⟨s, s, transfer_self_ok s A x balA hA hx (by omega),
      transfer_self_ok s A x balA hA hx (by omega), rfl, rfl⟩
  · have hBA : B ≠ A := fun h => hAB h.symm
    have hfb1B : Map.find? (Map.insert s.balances A (balA - x)) B
        = Map.find? s.balances B :=
      Map.find?_insert_ne s.balances (balA - x) hBA
    have hfb1A : Map.find? (Map.insert s.balances A (balA - x)) A
        = some (balA - x) :=
      Map.find?_insert_self s.balances A (balA - x)
    have hov1 : (Map.find? (Map.insert s.balances A (balA - x)) B).getD 0 + x
        < U128_MOD := by
      rw [hfb1B]
      rcases hfB : Map.find? s.balances B with _ | vB
      · simp only [Option.getD_none]
        omega
      · simp only [Option.getD_some]
        have := Map.two_find?_le_sum s.balances hBA hfB hA
        omega
    have h1 := transfer_ok s A B x balA hA hx hov1
    have hov2 : (Map.find? (Map.insert
        (Map.insert (Map.insert s.balances A (balA - x)) B
          ((Map.find? (Map.insert s.balances A (balA - x)) B).getD 0 + x)) B
        ((Map.find? (Map.insert s.balances A (balA - x)) B).getD 0 + x - x))
        A).getD 0 + x < U128_MOD := by
      rw [Map.find?_insert_ne _ _ hAB, Map.find?_insert_ne _ _ hAB, hfb1A]
      simp only [Option.getD_some]
      omega
    refine ⟨_, _, h1, transfer_ok _ B A x
      ((Map.find? (Map.insert s.balances A (balA - x)) B).getD 0 + x)
      (Map.find?_insert_self _ B _) (by omega) hov2, ?_, ?_⟩
    · simp only [Chest.balance_of]
      rw [Map.find?_insert_self]
      simp only [Option.getD_some]
      rw [Map.find?_insert_ne _ _ hAB, Map.find?_insert_ne _ _ hAB, hfb1A, hA]
      simp only [Option.getD_some]
      omega
    · simp only [Chest.balance_of]
      rw [Map.find?_insert_ne _ _ hBA, Map.find?_insert_self]
      simp only [Option.getD_some]
      rw [hfb1B]
      omega

theorem C9_witness :
    ∃ s₁ s₂, transfer c6MintState 1 2 2 = .ok s₁ ∧
      transfer s₁ 2 1 2 = .ok s₂ ∧
      s₂.balance_of 1 = c6MintState.balance_of 1 ∧
      s₂.balance_of 2 = c6MintState.balance_of 2 :=
  C9_round_trip c6MintState 1 2 2 5 (by decide) (by decide) (by decide)
